import Mathlib

/-
Verification of the gorse server node (package `server`): the master sync
loop (`Server.Sync`), the popular-items cache (`PopularItemsCache`) and the
hidden-items cache (`HiddenItemsCache`), together with the identity
bootstrap portion of `Server.Serve`.

The Go code is embedded shallowly:
- machine state (`Server`, the two cache structs) becomes Lean structures;
- each remote interaction (GetMeta RPC, JSON parse, `data.Open`,
  `cache.Open`, sorted-set queries, local-cache read/write) is an input of
  the embedded function, supplied through an explicit environment value, so
  a single tick is a pure function of the state and that environment;
- the cache store's sorted sets are lists of `(member, score)` pairs;
  hidden-item scores are Unix-second timestamps, modelled as `Int`
  (the code passes `float64(ts.Unix())` bounds, which are integral);
  popularity scores are modelled as `ℚ` (stored and returned, never
  computed with);
- `goto sleep` becomes an early return of the tick function; the
  surrounding `for` loop consumes a list of tick environments.
-/

namespace Gorse

/-- Node kind carried in `protocol.NodeInfo` (`protocol.NodeType_ServerNode`
and friends). -/
inductive NodeType where
  | serverNode
  | workerNode
deriving DecidableEq, Repr

/-- Payload of `protocol.NodeInfo`: node type, node name, HTTP port. -/
structure NodeInfo where
  nodeType : NodeType
  nodeName : String
  httpPort : Int
deriving DecidableEq, Repr

/-- Requests a server node can issue to the master over its RPC channel. -/
inductive Request where
  | getMeta (info : NodeInfo)
  | describeNode (info : NodeInfo)
deriving DecidableEq, Repr

/-- Whether a request is a registration / describe request. -/
def Request.isDescribe : Request → Bool
  | .describeNode _ => true
  | .getMeta _ => false

/-- The `config.Config.Master` fields used by this file: `MetaTimeout`. -/
structure MasterConfig where
  metaTimeout : Nat
deriving DecidableEq, Repr

/-- The `config.Config.Database` fields used by this file: `DataStore` and
`CacheStore` addresses. -/
structure DatabaseConfig where
  dataStore : String
  cacheStore : String
deriving DecidableEq, Repr

/-- The `config.Config.Server` fields used by this file: `CacheExpire`. -/
structure ServerConfig where
  cacheExpire : Nat
deriving DecidableEq, Repr

/-- The slice of `config.Config` consumed by the server node. -/
structure Config where
  master : MasterConfig
  database : DatabaseConfig
  server : ServerConfig
deriving DecidableEq, Repr

/-- The configuration blob `meta.Config` returned by the master: either a
well-formed complete configuration or a malformed blob that the JSON
decoder rejects. -/
inductive ConfigBlob where
  | malformed
  | wellFormed (cfg : Config)
deriving DecidableEq, Repr

/-- Result of `json.Unmarshal` of a configuration blob: the decoded
configuration, or `none` on a parse failure (a rejected blob leaves the
target untouched). -/
def parseConfig : ConfigBlob → Option Config
  | .malformed => none
  | .wellFormed cfg => some cfg

/-- A store connection handle (`data.Database` / `cache.Database` value):
the `NoDatabase` placeholder installed by `NewServer`, the nil value a
failed `Open` returns, or a live connection. -/
inductive Client where
  | noDatabase
  | nilClient
  | conn (addr : String) (generation : Nat)
deriving DecidableEq, Repr

/-- State of a `server.Server` (the fields read or written by `Sync` and
`Serve`; `RestServer` fields are inlined). -/
structure Server where
  cachePath : String
  dataPath : String
  serverName : String
  httpPort : Int
  testMode : Bool
  gorseConfig : Config
  dataClient : Client
  cacheClient : Client
deriving DecidableEq, Repr

/-- Outcomes of the remote interactions of one iteration of `Server.Sync`:
the GetMeta reply (`none` = transport/application failure), and for each
store the pair returned by `Open` (client value and error), mirroring the
Go multiple assignment `s.DataClient, err = data.Open(...)`. -/
structure TickEnv where
  getMeta : Option ConfigBlob
  dataClient : Client
  dataErr : Option Unit
  cacheClient : Client
  cacheErr : Option Unit
deriving DecidableEq, Repr

/-- Observable events of one iteration of `Server.Sync`: the requests sent
to the master and whether each store's `Open` was called. -/
structure TickTrace where
  requests : List Request
  dataOpenAttempted : Bool
  cacheOpenAttempted : Bool
deriving DecidableEq, Repr

/-- The cache-store connection step of a `Server.Sync` iteration (the
`connect to cache store` block). -/
def connectCacheStep (s : Server) (cfg : Config) (env : TickEnv)
    (req : Request) (dataAttempted : Bool) : Server × TickTrace :=
  if s.cachePath = cfg.database.cacheStore then
    (s, ⟨[req], dataAttempted, false⟩)
  else
    let s2 : Server := { s with cacheClient := env.cacheClient }
    match env.cacheErr with
    | some _ => (s2, ⟨[req], dataAttempted, true⟩)
    | none => ({ s2 with cachePath := cfg.database.cacheStore },
               ⟨[req], dataAttempted, true⟩)

/-- One iteration of the `for` loop in `Server.Sync`: GetMeta, parse the
configuration, reconnect the data store and the cache store when their
addresses changed; every failure jumps to the sleep label, i.e. returns
early. -/
def syncTick (s : Server) (env : TickEnv) : Server × TickTrace :=
  let req := Request.getMeta ⟨NodeType.serverNode, s.serverName, s.httpPort⟩
  match env.getMeta with
  | none => (s, ⟨[req], false, false⟩)
  | some blob =>
    match parseConfig blob with
    | none => (s, ⟨[req], false, false⟩)
    | some cfg =>
      let s1 : Server := { s with gorseConfig := cfg }
      if s1.dataPath = cfg.database.dataStore then
        connectCacheStep s1 cfg env req false
      else
        let s2 : Server := { s1 with dataClient := env.dataClient }
        match env.dataErr with
        | some _ => (s2, ⟨[req], true, false⟩)
        | none =>
          connectCacheStep { s2 with dataPath := cfg.database.dataStore }
            cfg env req true

/-- Aggregate observation of a run of `Server.Sync`: final state, number of
iterations executed, the duration slept after each non-final iteration,
and all requests sent. -/
structure SyncRun where
  finalState : Server
  ticks : Nat
  sleeps : List Nat
  requests : List Request
deriving DecidableEq, Repr

/-- The `for` loop of `Server.Sync`, driven by one `TickEnv` per
iteration: in test mode it returns right after the first iteration,
otherwise it sleeps `s.GorseConfig.Master.MetaTimeout` and loops. -/
def syncLoop (s : Server) : List TickEnv → SyncRun
  | [] => ⟨s, 0, [], []⟩
  | env :: rest =>
    let s1 := (syncTick s env).1
    let tr := (syncTick s env).2
    if s.testMode then
      ⟨s1, 1, [], tr.requests⟩
    else
      let r := syncLoop s1 rest
      ⟨r.finalState, r.ticks + 1,
        s1.gorseConfig.master.metaTimeout :: r.sleeps,
        tr.requests ++ r.requests⟩

/-- Error kinds returned by the cache store, as distinguished by
`errors.IsNotAssigned`: the sorted set has never been populated, or any
other failure. -/
inductive StoreErr where
  | notAssigned
  | other
deriving DecidableEq, Repr

/-- Mirrors `errors.IsNotAssigned`. -/
def StoreErr.isNotAssigned : StoreErr → Bool
  | .notAssigned => true
  | .other => false

/-- An element of a cache-store sorted set with an integral score
(`cache.Scored` with a Unix-second timestamp score). -/
abbrev TimeEntry := String × Int

/-- Modelled from the spec: the cache store's range query by score bounds
(`CacheClient.GetSortedByScore`, whose implementation lives outside this
file) returns the `{id, score}` pairs whose score falls in the inclusive
range `[lo, hi]`. -/
def getSortedByScore (store : List TimeEntry) (lo hi : Int) : List TimeEntry :=
  store.filter (fun e => decide (lo ≤ e.2 ∧ e.2 ≤ hi))

/-- Modelled from the spec: the same range query with lower bound
`math.Inf(-1)`, i.e. every pair whose score is at most `hi`. -/
def getSortedUpTo (store : List TimeEntry) (hi : Int) : List TimeEntry :=
  store.filter (fun e => decide (e.2 ≤ hi))

/-- Mirrors `cache.RemoveScores`: keep the members, drop the scores. -/
def removeScores (entries : List TimeEntry) : List String :=
  entries.map Prod.fst

/-- State of `server.HiddenItemsCache`: the published snapshot set and its
`updateTime` (the spec's `asOf`). -/
structure HiddenItemsCache where
  hiddenItems : List String
  updateTime : Int
deriving DecidableEq, Repr

/-- One run of `HiddenItemsCache.sync` at wall-clock second `ts`:
on query success publish the set of members whose score is `≤ ts`
together with `updateTime = ts`; on failure keep the previous snapshot,
logging only when the error is not the never-populated kind. Returns the
new state and whether an error was logged. -/
def HiddenItemsCache.syncStep (hc : HiddenItemsCache) (store : List TimeEntry)
    (ts : Int) (queryErr : Option StoreErr) : HiddenItemsCache × Bool :=
  match queryErr with
  | some e => (hc, !e.isNotAssigned)
  | none => (⟨removeScores (getSortedUpTo store ts), ts⟩, false)

/-- `HiddenItemsCache.IsHidden` at wall-clock second `now`: read the
snapshot, issue the delta query over scores in `[updateTime, now]`, and
answer membership in snapshot-or-delta; a delta query failure is returned
to the caller as an error. -/
def HiddenItemsCache.isHidden (hc : HiddenItemsCache) (store : List TimeEntry)
    (now : Int) (queryErr : Option StoreErr) (members : List String) :
    Except StoreErr (List Bool) :=
  match queryErr with
  | some e => .error e
  | none =>
    let delta := removeScores (getSortedByScore store hc.updateTime now)
    .ok (members.map (fun t => hc.hiddenItems.contains t || delta.contains t))

/-- An element of the popular-items sorted set (`cache.Scored`). -/
structure Scored where
  id : String
  score : ℚ
deriving DecidableEq, Repr

/-- The map built by `PopularItemsCache.sync`'s loop
`scores[item.Id] = item.Score`: later pairs shadow earlier ones. -/
def buildScores (items : List Scored) : List (String × ℚ) :=
  items.foldl (fun m item => (item.id, item.score) :: m) []

/-- State of `server.PopularItemsCache`: the published score map. -/
structure PopularItemsCache where
  scores : List (String × ℚ)
deriving DecidableEq, Repr

/-- One run of `PopularItemsCache.sync`: on query success publish the
rebuilt score map; on failure keep the previous snapshot, logging only
when the error is not the never-populated kind. Returns the new state and
whether an error was logged. -/
def PopularItemsCache.syncStep (sc : PopularItemsCache)
    (res : Except StoreErr (List Scored)) : PopularItemsCache × Bool :=
  match res with
  | .error e => (sc, !e.isNotAssigned)
  | .ok items => (⟨buildScores items⟩, false)

/-- `PopularItemsCache.GetSortedScore`: Go map lookup with the zero-value
default, `score, _ := sc.scores[member]`. -/
def PopularItemsCache.getSortedScore (sc : PopularItemsCache)
    (member : String) : ℚ :=
  (sc.scores.lookup member).getD 0

/-- State of the persisted `LocalCache` as far as `Server.Serve` reads it:
the backing path and the stored server name. -/
structure LocalCache where
  path : String
  serverName : String
deriving DecidableEq, Repr

/-- Modelled from the spec: `LoadLocalCache` (its body is outside this
file) reads the persisted identity at `path`; on a failed read it returns
the error together with a state carrying no identity (empty name), and
processing continues as if no identity existed. -/
def loadLocalCache (path : String) (readResult : Except Unit String) :
    LocalCache × Option Unit :=
  match readResult with
  | .error _ => ({ path := path, serverName := "" }, some ())
  | .ok name => ({ path := path, serverName := name }, none)

/-- Outcome of the identity bootstrap prefix of `Server.Serve`: whether the
process died on a fatal log, the server name adopted otherwise, how many
durable writes were attempted, and whether a load failure was logged. -/
structure BootstrapOutcome where
  fatal : Bool
  serverName : String
  writeAttempts : Nat
  loggedLoadError : Bool
deriving DecidableEq, Repr

/-- The identity bootstrap prefix of `Server.Serve`: load the local cache
(logging a failed load and continuing), then, exactly when the loaded name
is empty, draw `randomName` and persist it, dying fatally if that write
fails. -/
def serveBootstrap (path : String) (readResult : Except Unit String)
    (randomName : String) (writeResult : Option Unit) : BootstrapOutcome :=
  let loaded := loadLocalCache path readResult
  let logged := loaded.2.isSome
  if loaded.1.serverName = "" then
    match writeResult with
    | some _ =>
      { fatal := true, serverName := randomName, writeAttempts := 1,
        loggedLoadError := logged }
    | none =>
      { fatal := false, serverName := randomName, writeAttempts := 1,
        loggedLoadError := logged }
  else
    { fatal := false, serverName := loaded.1.serverName, writeAttempts := 0,
      loggedLoadError := logged }

/-- A sample configuration for concrete runs. -/
def cfgA : Config := ⟨⟨7⟩, ⟨"data-a", "cache-a"⟩, ⟨3⟩⟩

/-- A second sample configuration with different store addresses. -/
def cfgB : Config := ⟨⟨7⟩, ⟨"data-b", "cache-b"⟩, ⟨3⟩⟩

/-- A freshly constructed server node (no recorded store addresses,
placeholder clients), as `NewServer` leaves it. -/
def server0 : Server := ⟨"", "", "n0", 8087, false, cfgA, .noDatabase, .noDatabase⟩

/-- The same server node with the test-mode flag set. -/
def testServer0 : Server := ⟨"", "", "n0", 8087, true, cfgA, .noDatabase, .noDatabase⟩

/-- A tick in which every remote interaction succeeds, pulling `cfgA`. -/
def envOkA : TickEnv :=
  ⟨some (.wellFormed cfgA), .conn "data-a" 1, none, .conn "cache-a" 1, none⟩

/-- A tick in which the master is unreachable. -/
def envDown : TickEnv := ⟨none, .nilClient, some (), .nilClient, some ()⟩

/-- A tick pulling `cfgB` in which both store opens fail, returning nil
clients. -/
def envFailOpenB : TickEnv :=
  ⟨some (.wellFormed cfgB), .nilClient, some (), .nilClient, some ()⟩

/-- Membership in the member list extracted from a sorted-set query
result. -/
theorem contains_removeScores (l : List TimeEntry) (item : String) :
    ((removeScores l).contains item = true) ↔ ∃ t, (item, t) ∈ l := by
  simp only [removeScores, List.elem_iff, List.mem_map]
  constructor
  · rintro ⟨p, hp, rfl⟩
    exact ⟨p.2, hp⟩
  · rintro ⟨t, ht⟩
    exact ⟨(item, t), ht, rfl⟩

/-- A lookup over an association list none of whose keys is `a` returns
`none`. -/
theorem lookup_eq_none_of_forall_ne (l : List (String × ℚ)) (a : String)
    (h : ∀ q ∈ l, q.1 ≠ a) : l.lookup a = none := by
  induction l with
  | nil => rfl
  | cons p t ih =>
    obtain ⟨k, v⟩ := p
    have hk : (a == k) = false := by
      simp only [beq_eq_false_iff_ne]
      exact fun e => h (k, v) (List.mem_cons_self _ t) e.symm
    simp only [List.lookup, hk]
    exact ih fun q hq => h q (List.mem_cons_of_mem _ hq)

/-- C1: if an item's "became hidden" timestamp is `T` and the last full
refresh of the hidden-items cache happened (successfully) at `T - 5`, then
`IsHidden([item])` answers `true` whenever it is called at a time `≥ T`
(the delta query over `[asOf, now]` catches the item) and `false` whenever
it is called at a time `< T` (neither the snapshot, which holds items
hidden at or before the refresh, nor the delta window reaches `T`). -/
theorem isHidden_boundary_correct (hc0 : HiddenItemsCache)
    (store : List TimeEntry) (item : String) (T now : Int)
    (hmem : (item, T) ∈ store)
    (honly : ∀ p ∈ store, p.1 = item → p.2 = T) :
    (T ≤ now →
      (HiddenItemsCache.syncStep hc0 store (T - 5) none).1.isHidden
        store now none [item] = .ok [true]) ∧
    (now < T →
      (HiddenItemsCache.syncStep hc0 store (T - 5) none).1.isHidden
        store now none [item] = .ok [false]) := by
  have hres : (HiddenItemsCache.syncStep hc0 store (T - 5) none).1.isHidden
      store now none [item]
      = .ok [(removeScores (getSortedUpTo store (T - 5))).contains item ||
             (removeScores (getSortedByScore store (T - 5) now)).contains item] := rfl
  rw [hres]
  constructor
  · intro hTn
    have hB : (removeScores (getSortedByScore store (T - 5) now)).contains item
        = true := by
      rw [contains_removeScores]
      refine ⟨T, List.mem_filter.2 ⟨hmem, ?_⟩⟩
      simp only [decide_eq_true_eq]
      omega
    rw [hB, Bool.or_true]
  · intro hnT
    have hA : (removeScores (getSortedUpTo store (T - 5))).contains item
        = false := by
      rw [Bool.eq_false_iff]
      intro hc
      obtain ⟨t, ht⟩ := (contains_removeScores _ _).1 hc
      have hmf := List.mem_filter.1 ht
      have heq := honly (item, t) hmf.1 rfl
      simp only [decide_eq_true_eq] at hmf heq
      omega
    have hB : (removeScores (getSortedByScore store (T - 5) now)).contains item
        = false := by
      rw [Bool.eq_false_iff]
      intro hc
      obtain ⟨t, ht⟩ := (contains_removeScores _ _).1 hc
      have hmf := List.mem_filter.1 ht
      have heq := honly (item, t) hmf.1 rfl
      simp only [decide_eq_true_eq] at hmf heq
      omega
    rw [hA, hB]
    rfl

/-- Witness for C1 at a concrete store: item "x" hidden at second 100,
refresh at second 95; a call at 100 answers true, a call at 99 answers
false. -/
theorem isHidden_boundary_correct_witness :
    (HiddenItemsCache.syncStep ⟨[], 0⟩ [("x", 100)] (100 - 5) none).1.isHidden
      [("x", 100)] 100 none ["x"] = .ok [true] ∧
    (HiddenItemsCache.syncStep ⟨[], 0⟩ [("x", 100)] (100 - 5) none).1.isHidden
      [("x", 100)] 99 none ["x"] = .ok [false] := by
  have h := isHidden_boundary_correct ⟨[], 0⟩ [("x", 100)] "x" 100 100
    (by simp) (by decide)
  have h2 := isHidden_boundary_correct ⟨[], 0⟩ [("x", 100)] "x" 100 99
    (by simp) (by decide)
  exact ⟨h.1 (by decide), h2.2 (by decide)⟩

/-- C5: a popularity lookup for a member absent from the current snapshot
returns exactly `0` (and, being a total function, never fails); and after
a successful refresh from source pairs `a ↦ 5`, `b ↦ 3`, lookups answer
`5` for `a`, `3` for `b` and `0` for `c`. -/
theorem getSortedScore_zero_default_and_example
    (sc sc0 : PopularItemsCache) (member : String)
    (habs : ∀ q ∈ sc.scores, q.1 ≠ member) :
    sc.getSortedScore member = 0 ∧
    ((PopularItemsCache.syncStep sc0 (.ok [⟨"a", 5⟩, ⟨"b", 3⟩])).1.getSortedScore
        "a" = 5 ∧
     (PopularItemsCache.syncStep sc0 (.ok [⟨"a", 5⟩, ⟨"b", 3⟩])).1.getSortedScore
        "b" = 3 ∧
     (PopularItemsCache.syncStep sc0 (.ok [⟨"a", 5⟩, ⟨"b", 3⟩])).1.getSortedScore
        "c" = 0) := by
  refine ⟨?_, rfl, rfl, rfl⟩
  unfold PopularItemsCache.getSortedScore
  rw [lookup_eq_none_of_forall_ne sc.scores member habs]
  rfl

/-- Witness for C5: an empty snapshot answers `0` for "z", and the
refreshed snapshot answers the example values. -/
theorem getSortedScore_zero_default_and_example_witness :
    PopularItemsCache.getSortedScore ⟨[]⟩ "z" = 0 ∧
    ((PopularItemsCache.syncStep ⟨[]⟩ (.ok [⟨"a", 5⟩, ⟨"b", 3⟩])).1.getSortedScore
        "a" = 5 ∧
     (PopularItemsCache.syncStep ⟨[]⟩ (.ok [⟨"a", 5⟩, ⟨"b", 3⟩])).1.getSortedScore
        "b" = 3 ∧
     (PopularItemsCache.syncStep ⟨[]⟩ (.ok [⟨"a", 5⟩, ⟨"b", 3⟩])).1.getSortedScore
        "c" = 0) :=
  getSortedScore_zero_default_and_example ⟨[]⟩ ⟨[]⟩ "z" (by simp)

/-- C6: `IsHidden` returns an error to its caller exactly when the delta
query fails, in which case no boolean answers are produced; the error is
the delta query's own error, never degraded into "not hidden" answers. -/
theorem isHidden_error_exactly_on_delta_failure (hc : HiddenItemsCache)
    (store : List TimeEntry) (now : Int) (queryErr : Option StoreErr)
    (members : List String) :
    ((∃ bs, hc.isHidden store now queryErr members = .ok bs) ↔
      queryErr = none) ∧
    (∀ e, queryErr = some e →
      hc.isHidden store now queryErr members = .error e) := by
  cases queryErr <;> simp [HiddenItemsCache.isHidden]

/-- Witness for C6: with a failing delta query the call surfaces the
error; with a succeeding one it answers booleans. -/
theorem isHidden_error_exactly_on_delta_failure_witness :
    HiddenItemsCache.isHidden ⟨[], 0⟩ [] 0 (some .other) ["x"]
      = .error .other ∧
    (∃ bs, HiddenItemsCache.isHidden ⟨[], 0⟩ [] 0 none ["x"] = .ok bs) :=
  ⟨(isHidden_error_exactly_on_delta_failure ⟨[], 0⟩ [] 0 (some .other)
      ["x"]).2 .other rfl,
   (isHidden_error_exactly_on_delta_failure ⟨[], 0⟩ [] 0 none ["x"]).1.2 rfl⟩

/-- C7: a failed refresh of either cache leaves the cache state exactly as
it was — the popularity snapshot, the hidden-items snapshot and its
`updateTime` are all unchanged — and an error is logged exactly when the
failure is not the never-populated kind (that kind being a quiet no-op). -/
theorem cache_sync_failure_keeps_state (sc : PopularItemsCache)
    (hc : HiddenItemsCache) (store : List TimeEntry) (ts : Int)
    (e e2 : StoreErr) :
    (PopularItemsCache.syncStep sc (.error e)).1 = sc ∧
    ((PopularItemsCache.syncStep sc (.error e)).2 = true ↔
      e ≠ .notAssigned) ∧
    (HiddenItemsCache.syncStep hc store ts (some e2)).1.hiddenItems
      = hc.hiddenItems ∧
    (HiddenItemsCache.syncStep hc store ts (some e2)).1.updateTime
      = hc.updateTime ∧
    ((HiddenItemsCache.syncStep hc store ts (some e2)).2 = true ↔
      e2 ≠ .notAssigned) := by
  refine ⟨rfl, ?_, rfl, rfl, ?_⟩
  · cases e <;> simp [PopularItemsCache.syncStep, StoreErr.isNotAssigned]
  · cases e2 <;> simp [HiddenItemsCache.syncStep, StoreErr.isNotAssigned]

/-- A tick with an unreachable master leaves the state unchanged and sends
only the GetMeta request. -/
theorem syncTick_meta_failed (s : Server) (env : TickEnv)
    (hm : env.getMeta = none) :
    syncTick s env = (s,
      ⟨[Request.getMeta ⟨NodeType.serverNode, s.serverName, s.httpPort⟩],
        false, false⟩) := by
  unfold syncTick
  rw [hm]

/-- A tick whose configuration blob fails to parse leaves the state
unchanged and attempts no store connection. -/
theorem syncTick_parse_failed (s : Server) (env : TickEnv) (blob : ConfigBlob)
    (hm : env.getMeta = some blob) (hp : parseConfig blob = none) :
    syncTick s env = (s,
      ⟨[Request.getMeta ⟨NodeType.serverNode, s.serverName, s.httpPort⟩],
        false, false⟩) := by
  unfold syncTick
  rw [hm]
  dsimp only
  rw [hp]

/-- Unfolding of a tick whose meta pull and configuration parse both
succeed. -/
theorem syncTick_parsed (s : Server) (env : TickEnv) (blob : ConfigBlob)
    (cfg : Config) (hm : env.getMeta = some blob)
    (hp : parseConfig blob = some cfg) :
    syncTick s env =
      (if s.dataPath = cfg.database.dataStore then
        connectCacheStep { s with gorseConfig := cfg } cfg env
          (Request.getMeta ⟨NodeType.serverNode, s.serverName, s.httpPort⟩)
          false
      else
        match env.dataErr with
        | some _ =>
          ({ s with gorseConfig := cfg, dataClient := env.dataClient },
           ⟨[Request.getMeta ⟨NodeType.serverNode, s.serverName, s.httpPort⟩],
             true, false⟩)
        | none =>
          connectCacheStep
            { s with
              gorseConfig := cfg, dataClient := env.dataClient,
              dataPath := cfg.database.dataStore } cfg env
            (Request.getMeta ⟨NodeType.serverNode, s.serverName, s.httpPort⟩)
            true) := by
  unfold syncTick
  rw [hm]
  dsimp only
  rw [hp]

/-- The cache-store step never touches the configuration, the data-store
key or the data client, sends nothing of its own, and passes the
data-attempt flag through. -/
theorem connectCacheStep_frame (s : Server) (cfg : Config) (env : TickEnv)
    (req : Request) (d : Bool) :
    (connectCacheStep s cfg env req d).1.gorseConfig = s.gorseConfig ∧
    (connectCacheStep s cfg env req d).1.dataPath = s.dataPath ∧
    (connectCacheStep s cfg env req d).1.dataClient = s.dataClient ∧
    (connectCacheStep s cfg env req d).2.requests = [req] ∧
    (connectCacheStep s cfg env req d).2.dataOpenAttempted = d := by
  unfold connectCacheStep
  split
  · exact ⟨rfl, rfl, rfl, rfl, rfl⟩
  · cases env.cacheErr <;> exact ⟨rfl, rfl, rfl, rfl, rfl⟩

/-- When the recorded cache-store address already matches the pulled one,
the cache-store step is a no-op that opens nothing. -/
theorem connectCacheStep_noop (s : Server) (cfg : Config) (env : TickEnv)
    (req : Request) (d : Bool) (h : s.cachePath = cfg.database.cacheStore) :
    connectCacheStep s cfg env req d = (s, ⟨[req], d, false⟩) := by
  unfold connectCacheStep
  rw [if_pos h]

/-- When the recorded cache-store address differs from the pulled one, the
step opens a connection, installs whatever client the open returned, and
advances the recorded address exactly when the open succeeded. -/
theorem connectCacheStep_attempt (s : Server) (cfg : Config) (env : TickEnv)
    (req : Request) (d : Bool) (h : s.cachePath ≠ cfg.database.cacheStore) :
    (connectCacheStep s cfg env req d).2.cacheOpenAttempted = true ∧
    (connectCacheStep s cfg env req d).1.cacheClient = env.cacheClient ∧
    (env.cacheErr = some () →
      (connectCacheStep s cfg env req d).1.cachePath = s.cachePath) ∧
    (env.cacheErr = none →
      (connectCacheStep s cfg env req d).1.cachePath
        = cfg.database.cacheStore) := by
  unfold connectCacheStep
  rw [if_neg h]
  cases henv : env.cacheErr <;>
    exact ⟨rfl, rfl, fun h2 => by simp_all, fun h2 => by simp_all⟩

/-- After a cache-store step whose open (if any) succeeded, the recorded
cache-store address is the pulled one. -/
theorem connectCacheStep_cachePath_ok (s : Server) (cfg : Config)
    (env : TickEnv) (req : Request) (d : Bool) (hce : env.cacheErr = none) :
    (connectCacheStep s cfg env req d).1.cachePath
      = cfg.database.cacheStore := by
  unfold connectCacheStep
  split
  · assumption
  · rw [hce]

/-- C9: with the test-mode flag set, `Sync` executes exactly one tick —
whatever that tick's individual steps did — and returns: one iteration,
no sleep, no second tick, for every possible tick outcome and every queue
of further ticks. -/
theorem testMode_single_tick (s : Server) (env : TickEnv)
    (rest : List TickEnv) (h : s.testMode = true) :
    syncLoop s (env :: rest)
      = ⟨(syncTick s env).1, 1, [], (syncTick s env).2.requests⟩ := by
  simp [syncLoop, h]

/-- Witness for C9: a test-mode server given two queued ticks executes
exactly one and sleeps never. -/
theorem testMode_single_tick_witness :
    syncLoop testServer0 [envOkA, envDown]
      = ⟨(syncTick testServer0 envOkA).1, 1, [],
         (syncTick testServer0 envOkA).2.requests⟩ :=
  testMode_single_tick testServer0 envOkA [envDown] rfl

/-- C3: on a successful tick the held configuration is replaced wholesale
by the parsed one (independently of its previous value); on a failed tick
— master unreachable or parse failure — the whole server state, the
configuration included, is left unchanged, and (outside test mode) the
loop sleeps the previously-configured interval and attempts the next
tick. -/
theorem config_wholesale_or_unchanged (s : Server) (env : TickEnv) :
    (∀ blob cfg, env.getMeta = some blob → parseConfig blob = some cfg →
      (syncTick s env).1.gorseConfig = cfg) ∧
    (env.getMeta = none → (syncTick s env).1 = s) ∧
    (∀ blob, env.getMeta = some blob → parseConfig blob = none →
      (syncTick s env).1 = s) ∧
    (s.testMode = false →
      (env.getMeta = none ∨
        (∃ blob, env.getMeta = some blob ∧ parseConfig blob = none)) →
      ∀ rest,
        (syncLoop s (env :: rest)).ticks = (syncLoop s rest).ticks + 1 ∧
        (syncLoop s (env :: rest)).sleeps.head?
          = some s.gorseConfig.master.metaTimeout) := by
  refine ⟨?_, ?_, ?_, ?_⟩
  · intro blob cfg hm hp
    rw [syncTick_parsed s env blob cfg hm hp]
    split
    · simpa using (connectCacheStep_frame _ _ _ _ _).1
    · cases env.dataErr
      · simpa using (connectCacheStep_frame _ _ _ _ _).1
      · rfl
  · intro hm
    rw [syncTick_meta_failed s env hm]
  · intro blob hm hp
    rw [syncTick_parse_failed s env blob hm hp]
  · intro ht hfail rest
    have hunch : (syncTick s env).1 = s := by
      rcases hfail with hm | ⟨blob, hm, hp⟩
      · rw [syncTick_meta_failed s env hm]
      · rw [syncTick_parse_failed s env blob hm hp]
    constructor
    · simp [syncLoop, ht, hunch]
    · simp [syncLoop, ht, hunch]

/-- Witness for C3: a tick against an unreachable master leaves the sample
server untouched and the loop sleeps the configured 7 units. -/
theorem config_wholesale_or_unchanged_witness :
    (syncTick server0 envDown).1 = server0 ∧
    (syncLoop server0 [envDown]).sleeps.head? = some 7 := by
  have h := config_wholesale_or_unchanged server0 envDown
  refine ⟨h.2.1 rfl, ?_⟩
  have h4 := (h.2.2.2 rfl (Or.inl rfl) []).2
  simpa [server0, cfgA] using h4

/-- C4: in a tick whose meta pull and parse succeed, a data-store
connection is opened iff the pulled address differs from the recorded
`dataPath`; once the data step was not a failed open, a cache-store
connection is opened iff the pulled address differs from the recorded
`cachePath`; and after a fully successful tick, a second tick pulling the
same two addresses opens nothing and both handles are reused unchanged. -/
theorem connect_only_on_address_change (s : Server) (env env2 : TickEnv)
    (blob : ConfigBlob) (cfg : Config)
    (hm : env.getMeta = some blob) (hp : parseConfig blob = some cfg) :
    ((syncTick s env).2.dataOpenAttempted = true ↔
      s.dataPath ≠ cfg.database.dataStore) ∧
    ((s.dataPath = cfg.database.dataStore ∨ env.dataErr = none) →
      ((syncTick s env).2.cacheOpenAttempted = true ↔
        s.cachePath ≠ cfg.database.cacheStore)) ∧
    (∀ blob2 cfg2, env2.getMeta = some blob2 → parseConfig blob2 = some cfg2 →
      env.dataErr = none → env.cacheErr = none →
      cfg2.database.dataStore = cfg.database.dataStore →
      cfg2.database.cacheStore = cfg.database.cacheStore →
      (syncTick (syncTick s env).1 env2).2.dataOpenAttempted = false ∧
      (syncTick (syncTick s env).1 env2).2.cacheOpenAttempted = false ∧
      (syncTick (syncTick s env).1 env2).1.dataClient
        = (syncTick s env).1.dataClient ∧
      (syncTick (syncTick s env).1 env2).1.cacheClient
        = (syncTick s env).1.cacheClient) := by
  refine ⟨?_, ?_, ?_⟩
  · rw [syncTick_parsed s env blob cfg hm hp]
    by_cases hd : s.dataPath = cfg.database.dataStore
    · rw [if_pos hd]
      simpa [hd] using (connectCacheStep_frame _ _ _ _ _).2.2.2.2
    · rw [if_neg hd]
      cases env.dataErr
      · simpa [hd] using (connectCacheStep_frame _ _ _ _ _).2.2.2.2
      · simp [hd]
  · intro hreach
    rw [syncTick_parsed s env blob cfg hm hp]
    by_cases hd : s.dataPath = cfg.database.dataStore
    · rw [if_pos hd]
      by_cases hcp : s.cachePath = cfg.database.cacheStore
      · rw [connectCacheStep_noop { s with gorseConfig := cfg } cfg env _
          false hcp]
        simpa using hcp
      · rw [(connectCacheStep_attempt
          { s with gorseConfig := cfg } cfg env _ false hcp).1]
        simpa using hcp
    · have hde : env.dataErr = none := by
        rcases hreach with h | h
        · exact absurd h hd
        · exact h
      rw [if_neg hd, hde]
      dsimp only
      by_cases hcp : s.cachePath = cfg.database.cacheStore
      · rw [connectCacheStep_noop
          { s with
            gorseConfig := cfg, dataClient := env.dataClient,
            dataPath := cfg.database.dataStore } cfg env _ true hcp]
        simpa using hcp
      · rw [(connectCacheStep_attempt
          { s with
            gorseConfig := cfg, dataClient := env.dataClient,
            dataPath := cfg.database.dataStore } cfg env _ true hcp).1]
        simpa using hcp
  · intro blob2 cfg2 hm2 hp2 hde hce hdd hcc
    have hkey1 : (syncTick s env).1.dataPath = cfg.database.dataStore := by
      rw [syncTick_parsed s env blob cfg hm hp]
      by_cases hd : s.dataPath = cfg.database.dataStore
      · rw [if_pos hd]
        exact ((connectCacheStep_frame _ _ _ _ _).2.1).trans hd
      · rw [if_neg hd, hde]
        exact (connectCacheStep_frame _ _ _ _ _).2.1
    have hkey2 : (syncTick s env).1.cachePath = cfg.database.cacheStore := by
      rw [syncTick_parsed s env blob cfg hm hp]
      by_cases hd : s.dataPath = cfg.database.dataStore
      · rw [if_pos hd]
        exact connectCacheStep_cachePath_ok _ _ _ _ _ hce
      · rw [if_neg hd, hde]
        exact connectCacheStep_cachePath_ok _ _ _ _ _ hce
    rw [syncTick_parsed _ env2 blob2 cfg2 hm2 hp2]
    have hd2 : (syncTick s env).1.dataPath = cfg2.database.dataStore := by
      rw [hkey1, hdd]
    rw [if_pos hd2]
    have hc2 : (syncTick s env).1.cachePath = cfg2.database.cacheStore := by
      rw [hkey2, hcc]
    rw [connectCacheStep_noop { (syncTick s env).1 with gorseConfig := cfg2 }
      cfg2 env2 _ false hc2]
    exact ⟨rfl, rfl, rfl, rfl⟩

/-- Witness for C4: the fresh sample server opens the data store on the
first pull of `cfgA` and opens neither store on a second identical pull,
reusing the handle. -/
theorem connect_only_on_address_change_witness :
    (syncTick server0 envOkA).2.dataOpenAttempted = true ∧
    (syncTick (syncTick server0 envOkA).1 envOkA).2.dataOpenAttempted = false ∧
    (syncTick (syncTick server0 envOkA).1 envOkA).2.cacheOpenAttempted = false ∧
    (syncTick (syncTick server0 envOkA).1 envOkA).1.dataClient
      = (syncTick server0 envOkA).1.dataClient := by
  have h := connect_only_on_address_change server0 envOkA envOkA
    (.wellFormed cfgA) cfgA rfl rfl
  have h3 := h.2.2 (.wellFormed cfgA) cfgA rfl rfl rfl rfl rfl rfl
  exact ⟨h.1.mpr (by decide), h3.1, h3.2.1, h3.2.2.1⟩

/-- C10: when a tick attempts a store open because the pulled address
changed and the open fails, the recorded address key keeps its old value —
so the very next tick pulling the same configuration attempts the open
again — but the connection-handle field has already been overwritten with
whatever the failed open returned; the previously held handle is not
retained. Shown for the data store (whose failure also skips the cache
step, leaving the cache fields untouched) and for the cache store. -/
theorem failed_open_keeps_path_overwrites_client (s : Server)
    (env env2 : TickEnv) (blob blob2 : ConfigBlob) (cfg : Config)
    (hm : env.getMeta = some blob) (hp : parseConfig blob = some cfg) :
    (s.dataPath ≠ cfg.database.dataStore → env.dataErr = some () →
      ((syncTick s env).1.dataPath = s.dataPath ∧
       (syncTick s env).1.dataClient = env.dataClient ∧
       (syncTick s env).1.cachePath = s.cachePath ∧
       (syncTick s env).1.cacheClient = s.cacheClient ∧
       (env2.getMeta = some blob2 → parseConfig blob2 = some cfg →
         (syncTick (syncTick s env).1 env2).2.dataOpenAttempted = true))) ∧
    ((s.dataPath = cfg.database.dataStore ∨ env.dataErr = none) →
      s.cachePath ≠ cfg.database.cacheStore → env.cacheErr = some () →
      ((syncTick s env).1.cachePath = s.cachePath ∧
       (syncTick s env).1.cacheClient = env.cacheClient)) := by
  constructor
  · intro hd hde
    have htick : (syncTick s env).1
        = { s with gorseConfig := cfg, dataClient := env.dataClient } := by
      rw [syncTick_parsed s env blob cfg hm hp, if_neg hd, hde]
    rw [htick]
    refine ⟨rfl, rfl, rfl, rfl, ?_⟩
    intro hm2 hp2
    rw [syncTick_parsed _ env2 blob2 cfg hm2 hp2]
    rw [if_neg hd]
    cases env2.dataErr
    · exact (connectCacheStep_frame _ _ _ _ _).2.2.2.2
    · rfl
  · intro hreach hcp hce
    rw [syncTick_parsed s env blob cfg hm hp]
    by_cases hd : s.dataPath = cfg.database.dataStore
    · rw [if_pos hd]
      have h := connectCacheStep_attempt
        { s with gorseConfig := cfg } cfg env
        (Request.getMeta ⟨NodeType.serverNode, s.serverName, s.httpPort⟩)
        false hcp
      exact ⟨h.2.2.1 hce, h.2.1⟩
    · have hde : env.dataErr = none := by
        rcases hreach with h | h
        · exact absurd h hd
        · exact h
      rw [if_neg hd, hde]
      dsimp only
      have h := connectCacheStep_attempt
        { s with
          gorseConfig := cfg, dataClient := env.dataClient,
          dataPath := cfg.database.dataStore } cfg env
        (Request.getMeta ⟨NodeType.serverNode, s.serverName, s.httpPort⟩)
        true hcp
      exact ⟨h.2.2.1 hce, h.2.1⟩

/-- Witness for C10: the sample server's failed data-store open towards
`cfgB` keeps `dataPath` at its old value, installs the returned nil
client, and the next tick with the same configuration retries the open. -/
theorem failed_open_keeps_path_overwrites_client_witness :
    (syncTick server0 envFailOpenB).1.dataPath = server0.dataPath ∧
    (syncTick server0 envFailOpenB).1.dataClient = Client.nilClient ∧
    (syncTick (syncTick server0 envFailOpenB).1 envFailOpenB).2.dataOpenAttempted
      = true := by
  have h := (failed_open_keeps_path_overwrites_client server0 envFailOpenB
    envFailOpenB (.wellFormed cfgB) (.wellFormed cfgB) cfgB rfl rfl).1
    (by decide) rfl
  exact ⟨h.1, h.2.1, h.2.2.2.2 rfl rfl⟩

/-- C2 counterexample: a concrete run of the sync loop sends no
registration/describe request at all — its one and only request, the
first thing sent, is the GetMeta pull itself (which carries the node
info). -/
theorem sync_sends_no_describe_counterexample :
    ((syncLoop server0 [envOkA]).requests.all fun r => !r.isDescribe) = true ∧
    (syncLoop server0 [envOkA]).requests.head?
      = some (Request.getMeta ⟨NodeType.serverNode, "n0", 8087⟩) := by
  constructor <;> rfl

/-- C2 (amended): every tick of the sync loop sends exactly one request,
a GetMeta pull carrying node kind `serverNode`, the node's name and its
HTTP port; no separate DescribeNode registration is sent on entry. -/
theorem sync_requests_are_getMeta_node_info (s : Server) (env : TickEnv) :
    (syncTick s env).2.requests
      = [Request.getMeta ⟨NodeType.serverNode, s.serverName, s.httpPort⟩] := by
  cases hm : env.getMeta with
  | none => rw [syncTick_meta_failed s env hm]
  | some blob =>
    cases hp : parseConfig blob with
    | none => rw [syncTick_parse_failed s env blob hm hp]
    | some cfg =>
      rw [syncTick_parsed s env blob cfg hm hp]
      by_cases hd : s.dataPath = cfg.database.dataStore
      · rw [if_pos hd]
        exact (connectCacheStep_frame _ _ _ _ _).2.2.2.1
      · rw [if_neg hd]
        cases env.dataErr
        · exact (connectCacheStep_frame _ _ _ _ _).2.2.2.1
        · rfl

/-- C8: identity bootstrap performs at most one durable write; it writes
exactly when the loaded identity has an empty name; it is fatal exactly
when that write was needed and failed; a failed read is logged and then
handled exactly like a loaded empty identity; and a loaded non-empty name
is adopted with no write at all. -/
theorem serveBootstrap_correct (path : String) (rr : Except Unit String)
    (randomName : String) (wr : Option Unit) :
    (serveBootstrap path rr randomName wr).writeAttempts ≤ 1 ∧
    ((serveBootstrap path rr randomName wr).writeAttempts = 1 ↔
      (loadLocalCache path rr).1.serverName = "") ∧
    ((serveBootstrap path rr randomName wr).fatal = true ↔
      ((loadLocalCache path rr).1.serverName = "" ∧ wr.isSome = true)) ∧
    (rr = Except.error () →
      (serveBootstrap path rr randomName wr).loggedLoadError = true ∧
      serveBootstrap path rr randomName wr
        = { serveBootstrap path (Except.ok "") randomName wr with
            loggedLoadError := true }) ∧
    (∀ name, rr = Except.ok name → name ≠ "" →
      serveBootstrap path rr randomName wr
        = ⟨false, name, 0, false⟩) := by
  cases rr with
  | error u =>
    cases u
    cases wr <;> simp [serveBootstrap, loadLocalCache]
  | ok name =>
    cases wr <;> by_cases hn : name = "" <;>
      simp [serveBootstrap, loadLocalCache, hn]

/-- Witness for C8: on a failed read with a succeeding persist the process
survives with one write and a logged load error; with a failing persist it
dies. -/
theorem serveBootstrap_correct_witness :
    (serveBootstrap "meta.json" (Except.error ()) "gopher" none).writeAttempts
      ≤ 1 ∧
    (serveBootstrap "meta.json" (Except.error ()) "gopher" none).loggedLoadError
      = true ∧
    (serveBootstrap "meta.json" (Except.error ()) "gopher" (some ())).fatal
      = true :=
  ⟨(serveBootstrap_correct "meta.json" (.error ()) "gopher" none).1,
   ((serveBootstrap_correct "meta.json" (.error ()) "gopher" none).2.2.2.1
     rfl).1,
   ((serveBootstrap_correct "meta.json" (.error ()) "gopher"
     (some ())).2.2.1).mpr ⟨rfl, rfl⟩⟩

end Gorse
